import Mathlib

/-!
Shallow embedding of the onchain-portfolio-tracker core (src/main.py and
src/utils/price.py) and proofs about it.

Conventions of the embedding:
* Python floats are modelled as exact rationals (ℚ).
* A provider JSON field that may be absent is an `Option`; a field that may be
  present but unparseable (Python's `safe_decimal` / `int()` failing) is an
  `Option (Option _)`: `none` = absent, `some none` = present but unparseable,
  `some (some v)` = parsed value.
* Network fetches are parameters (`String → ...` environments): the aggregator
  is verified for every possible upstream response.
-/

set_option maxRecDepth 10000
set_option allowUnsafeReducibility true
attribute [reducible] Rat.add Rat.sub Rat.mul Rat.div Rat.inv Rat.neg

/-! ## Python-style string helpers -/

/-- Whitespace characters stripped by Python's `str.strip()` (ASCII subset). -/
def isPyWs (c : Char) : Bool :=
  c = ' ' || c = '\t' || c = '\n' || c = '\x0d' || c = '\x0b' || c = '\x0c'

/-- Python `str.strip()`: drop leading and trailing whitespace. -/
def pyStrip (s : String) : String :=
  String.mk (((s.toList.dropWhile isPyWs).reverse.dropWhile isPyWs).reverse)

/-- Python `str.lower()` restricted to ASCII. -/
def asciiLower (s : String) : String :=
  String.mk (s.toList.map Char.toLower)

/-- Python `str.capitalize()`: first character upper-cased, the rest lower-cased. -/
def asciiCapitalize (s : String) : String :=
  match s.toList with
  | [] => ""
  | c :: rest => String.mk (Char.toUpper c :: rest.map Char.toLower)

/-- Python `str.isdigit()` (ASCII digits; empty string is not a digit string). -/
def isDigitStr (s : String) : Bool :=
  !s.toList.isEmpty && s.toList.all Char.isDigit

/-- `leadMatch n l` : the list `n` is an initial segment of `l`. -/
def leadMatch : List Char → List Char → Bool
  | [], _ => true
  | _ :: _, [] => false
  | a :: as, b :: bs => a = b && leadMatch as bs

/-- `subSeg n l` : the list `n` occurs contiguously inside `l` (Python `in`). -/
def subSeg (n : List Char) : List Char → Bool
  | [] => n.isEmpty
  | c :: cs => leadMatch n (c :: cs) || subSeg n cs

/-- Python `needle in hay` on strings. -/
def strContainsSub (hay needle : String) : Bool :=
  subSeg needle.toList hay.toList

/-- Drop trailing characters satisfying `p` (Python `rstrip`). -/
def dropTrailing (p : Char → Bool) (s : String) : String :=
  String.mk ((s.toList.reverse.dropWhile p).reverse)

/-- Python string `<` (lexicographic on code points). -/
def strLtChars : List Char → List Char → Bool
  | [], [] => false
  | [], _ :: _ => true
  | _ :: _, [] => false
  | x :: xs, y :: ys => if x < y then true else if y < x then false else strLtChars xs ys

def strLtB (a b : String) : Bool := strLtChars a.toList b.toList

/-! ## Numeric rendering (Python format strings over exact rationals) -/

/-- Python `abs` on a rational. -/
def qabs (q : ℚ) : ℚ := if q < 0 then -q else q

/-- Floor of a non-negative rational, as a natural number. -/
def qfloorNat (x : ℚ) : Nat := x.num.toNat / x.den

/-- Round a non-negative rational to the nearest natural, ties to even
(the rounding Python's fixed-point formatting uses). -/
def rheNat (x : ℚ) : Nat :=
  if x - (qfloorNat x : ℚ) < (1:ℚ)/2 then qfloorNat x
  else if (1:ℚ)/2 < x - (qfloorNat x : ℚ) then qfloorNat x + 1
  else if qfloorNat x % 2 = 0 then qfloorNat x else qfloorNat x + 1

/-- Natural number rendered with at least `p` digits (leading zeros). -/
def natPad (p : Nat) (m : Nat) : String :=
  String.mk (List.replicate (p - (toString m).length) '0') ++ toString m

/-- Python `f"{q:.pf}"`: fixed-point with exactly `p` fraction digits. -/
def fmtFixed (p : Nat) (q : ℚ) : String :=
  if p = 0 then (if q < 0 then "-" else "") ++ toString (rheNat (qabs q * (10:ℚ)^p))
  else (if q < 0 then "-" else "") ++ toString (rheNat (qabs q * (10:ℚ)^p) / 10^p) ++
    "." ++ natPad p (rheNat (qabs q * (10:ℚ)^p) % 10^p)

/-- Insert thousands separators into a reversed digit list. -/
def group3rev : List Char → List Char
  | a :: b :: c :: d :: rest => a :: b :: c :: ',' :: group3rev (d :: rest)
  | l => l

/-- Thousands separators for a decimal digit string. -/
def groupThousands (s : String) : String :=
  String.mk ((group3rev s.toList.reverse).reverse)

/-- Python `f"{q:,.pf}"`: fixed-point with `p` fraction digits and thousands
separators in the integer part. -/
def fmtFixedComma (p : Nat) (q : ℚ) : String :=
  let sgn := if q < 0 then "-" else ""
  let n := rheNat (qabs q * (10:ℚ)^p)
  let ip := groupThousands (toString (n / 10^p))
  if p = 0 then sgn ++ ip
  else sgn ++ ip ++ "." ++ natPad p (n % 10^p)

/-- Decimal exponent of a positive rational: the `e` with `10^e ≤ a < 10^(e+1)`. -/
def qExp10 (a : ℚ) : Int :=
  let p := (toString a.num.natAbs).length
  let d := (toString a.den).length
  let g : Int := (p : Int) - (d : Int)
  if a < (10:ℚ)^g then g - 1 else g

/-- Python `f"{q:.2e}"`: scientific notation with two fraction digits. -/
def fmtSci2 (q : ℚ) : String :=
  if q = 0 then "0.00e+00"
  else
    let sgn := if q < 0 then "-" else ""
    let a := qabs q
    let e0 := qExp10 a
    let r0 := rheNat (a / (10:ℚ)^e0 * 100)
    let r := if 1000 ≤ r0 then 100 else r0
    let e := if 1000 ≤ r0 then e0 + 1 else e0
    let mant := toString (r / 100) ++ "." ++ natPad 2 (r % 100)
    let ex := if e < 0 then "-" ++ natPad 2 (-e).toNat else "+" ++ natPad 2 e.toNat
    sgn ++ mant ++ "e" ++ ex

/-! ## main.py display helpers -/

/-- `format_usd` (main.py): `None` passthrough, else `"$" + f"{value:,.2f}"`. -/
def format_usd (value : Option ℚ) : Option String :=
  match value with
  | none => none
  | some v => some ("$" ++ fmtFixedComma 2 v)

/-- `format_amount_short` (main.py): numbro-like short magnitude formatting. -/
def format_amount_short (amount : Option ℚ) : Option String :=
  match amount with
  | none => none
  | some n =>
    let abs_n := qabs n
    let sd : String × ℚ :=
      if 1000000000 ≤ abs_n then ("B", 1000000000)
      else if 1000000 ≤ abs_n then ("M", 1000000)
      else if 1000 ≤ abs_n then ("K", 1000)
      else ("", 1)
    let base := n / sd.2
    let s := if 100 ≤ qabs base then fmtFixedComma 0 base else fmtFixedComma 2 base
    some (s ++ sd.1)

/-- `format_signed_percent` (utils/prices): em-dash for `None`, else signed percent. -/
def format_signed_percent (x : Option ℚ) : String :=
  match x with
  | none => "—"
  | some v => (if 0 ≤ v then "+" else "") ++ fmtFixed 2 v ++ "%"

/-- `format_signed_currency` (main.py): `'+$123.45'` / `'-$12.34'`; zero plain. -/
def format_signed_currency (value : Option ℚ) : Option String :=
  match value with
  | none => none
  | some v =>
    let base := (format_usd (some (qabs v))).getD "$0.00"
    if v = 0 then some base
    else some ((if 0 < v then "+" else "-") ++ base)

/-! ## utils/price.py -/

/-- One entry of a `historical_prices` series. -/
structure HistPoint where
  offset_hours : Option Int
  price_usd : Option ℚ
deriving DecidableEq, Repr

/-- `pct` (utils/price.py): `None` if either input is `None` or `past == 0`. -/
def pct (curr past : Option ℚ) : Option ℚ :=
  match curr, past with
  | some c, some p => if p = 0 then none else some ((c - p) / p * 100)
  | _, _ => none

/-- `price_at` (utils/price.py): first entry with the requested offset; its
price (itself possibly `None`). A non-list history yields `None`. -/
def price_at (hist : Option (List HistPoint)) (h : Int) : Option ℚ :=
  match hist with
  | none => none
  | some l =>
    match l.find? (fun p => p.offset_hours == some h) with
    | some p => p.price_usd
    | none => none

def change1h (price : Option ℚ) (hist : Option (List HistPoint)) : Option ℚ :=
  pct price (price_at hist 1)

def change6h (price : Option ℚ) (hist : Option (List HistPoint)) : Option ℚ :=
  pct price (price_at hist 6)

def change24h (price : Option ℚ) (hist : Option (List HistPoint)) : Option ℚ :=
  pct price (price_at hist 24)

/-! ## Address classifier (main.py `detect_chain_type`) -/

/-- One character of `[0-9a-fA-F]`. -/
def isHexC (c : Char) : Bool :=
  c.isDigit || ('a' ≤ c && c ≤ 'f') || ('A' ≤ c && c ≤ 'F')

/-- Full match of `EVM_RE = ^0x[a-fA-F0-9]{40}$`. -/
def evmMatch (s : String) : Bool :=
  let l := s.toList
  l.length = 42 && leadMatch ['0', 'x'] l && (l.drop 2).all isHexC

/-- Index of a character in the Bitcoin base58 alphabet. -/
def b58Idx (c : Char) : Option Nat :=
  "123456789ABCDEFGHJKLMNPQRSTUVWXYZabcdefghijkmnopqrstuvwxyz".toList.findIdx?
    (fun a => a = c)

/-- Full match of `BASE58_RE = ^[1-9A-HJ-NP-Za-km-z]{32,44}$`. -/
def base58Match (s : String) : Bool :=
  let l := s.toList
  32 ≤ l.length && l.length ≤ 44 && l.all (fun c => (b58Idx c).isSome)

/-- Number of base-256 digits of `n` (`0` for `n = 0`), with explicit fuel so
it computes by reduction. -/
def natBytesFuel : Nat → Nat → Nat
  | 0, _ => 0
  | fuel + 1, n => if n = 0 then 0 else 1 + natBytesFuel fuel (n / 256)

def natBytes (n : Nat) : Nat := natBytesFuel n n

/-- Byte length of `b58decode` on a string of base58 characters: one zero byte
per leading `'1'`, then the base-256 digits of the decoded integer. -/
def b58decodedLen (s : String) : Nat :=
  let l := s.toList
  let ones := (l.takeWhile (fun c => c = '1')).length
  let acc := l.foldl (fun a c => a * 58 + (b58Idx c).getD 0) 0
  ones + natBytes acc

/-- `detect_chain_type` (main.py): `'evm'`, `'svm'` or `'unknown'`. The base58
decode cannot fail once `BASE58_RE` matched, so the `except` path never fires. -/
def detect_chain_type (address : String) : String :=
  let addr := pyStrip address
  if evmMatch addr then "evm"
  else if base58Match addr then
    if b58decodedLen addr = 32 ∨ b58decodedLen addr = 64 then "svm" else "unknown"
  else "unknown"

/-! ## Data model for balance records -/

/-- A provider chain id: integer for EVM chains, string for SVM. -/
abbrev ChainId := Sum Int String

/-- Nested `token_metadata` object, as far as the balance path reads it. -/
structure TokenMetadata where
  price_usd : Option ℚ
  historical_prices : Option (List HistPoint)
  address : Option String
deriving DecidableEq, Repr

/-- A raw provider balance record. `Option (Option _)` fields distinguish an
absent field (`none`) from a present but unparseable one (`some none`). -/
structure RawToken where
  chain : Option String
  chain_id : Option ChainId
  contract_address : Option String
  mint : Option String
  address : Option String
  asset_type : Option String
  symbol : Option String
  name : Option String
  decimals : Option (Option Int)
  amount : Option (Option ℚ)
  value_usd : Option (Option ℚ)
  price_usd : Option ℚ
  token_metadata : Option TokenMetadata
  historical_prices : Option (List HistPoint)
  low_liquidity : Bool
deriving DecidableEq, Repr

/-- A raw token with every field absent, for building concrete samples. -/
def blankToken : RawToken :=
  { chain := none, chain_id := none, contract_address := none, mint := none,
    address := none, asset_type := none, symbol := none, name := none,
    decimals := none, amount := none, value_usd := none, price_usd := none,
    token_metadata := none, historical_prices := none, low_liquidity := false }

/-- `get_chain_label` (main.py): capitalized chain string, else `"Unknown chain"`. -/
def get_chain_label (token : RawToken) : String :=
  match token.chain with
  | some c => if !(isDigitStr c) then asciiCapitalize c else "Unknown chain"
  | none => "Unknown chain"

/-- The `amount_numeric` computation shared by both balance normalizers
(main.py lines 344-354 and 468-480): parse decimals, require them
non-negative, parse the amount, scale by `10^decimals`; any failure gives
`None`. -/
def scaledAmount (token : RawToken) : Option ℚ :=
  match token.decimals with
  | some (some d) =>
    if 0 ≤ d then
      match token.amount with
      | some (some a) => some (a / (10:ℚ)^d.toNat)
      | _ => none
    else none
  | _ => none

/-- Python `a or b` on a history field: an absent or empty list falls back. -/
def pyOrHist (a b : Option (List HistPoint)) : Option (List HistPoint) :=
  match a with
  | some l => if l.isEmpty then b else some l
  | none => b

/-- Python `a or b` for an optional string with a string default. -/
def pyOrStr (a : Option String) (b : String) : String :=
  match a with
  | some s => if s = "" then b else s
  | none => b

/-- An optional string with `""` collapsed to `none` (Python truthiness). -/
def truthyStr (a : Option String) : Option String :=
  match a with
  | some s => if s = "" then none else some s
  | none => none

/-- The common token record produced by normalization: the spread-through raw
record plus the computed display/aggregation fields. -/
structure EnrichedToken where
  raw : RawToken
  valueUSDFormatted : Option String
  amountFormatted : Option String
  change24h : Option ℚ
  change24hBadgeClass : Option String
  change24hBadgeLabel : Option String
  chain_label : Option String
  amountNumeric : ℚ
  valueUSDNumeric : ℚ
deriving DecidableEq, Repr

/-- The per-record body of `get_wallet_balances` (main.py lines 339-404):
EVM balance normalization. Returns `none` exactly when the record is dropped
by the RTFKT rule, which the source applies after computing the other fields. -/
def enrichEvmToken (token : RawToken) : Option EnrichedToken :=
  let amount_numeric := scaledAmount token
  let value_usd := token.value_usd.bind id
  let value_usd_formatted := format_usd value_usd
  let amount_formatted :=
    match amount_numeric with
    | some a => format_amount_short (some a)
    | none => none
  let price : Option ℚ :=
    match token.price_usd with
    | some p => some p
    | none => token.token_metadata.bind (fun m => m.price_usd)
  let hist := pyOrHist token.historical_prices
    (token.token_metadata.bind (fun m => m.historical_prices))
  let d24 := match price with
    | some _ => change24h price hist
    | none => none
  let low_liquidity := token.low_liquidity
  let show_badge := d24.isSome && !low_liquidity
  let badge_class := if 0 ≤ d24.getD 0 then "badge-up" else "badge-down"
  let badge_label := match d24 with
    | some _ => some (format_signed_percent d24)
    | none => none
  if token.symbol = some "RTFKT" then none
  else some
    { raw := token
      valueUSDFormatted := value_usd_formatted
      amountFormatted := amount_formatted
      change24h := d24
      change24hBadgeClass := if show_badge then some badge_class else none
      change24hBadgeLabel := if show_badge then badge_label else none
      chain_label := some (get_chain_label token)
      amountNumeric := amount_numeric.getD 0
      valueUSDNumeric := value_usd.getD 0 }

/-- The normalization loop of `get_wallet_balances`. -/
def enrichEvmTokens (balances : List RawToken) : List EnrichedToken :=
  balances.filterMap enrichEvmToken

/-- The per-record body of `get_svm_balances` (main.py lines 449-502): SVM
balance normalization, synthesizing identity fields and leaving 24h change
null with a neutral badge. -/
def enrichSvmToken (token : RawToken) : EnrichedToken :=
  let chain := asciiLower (pyOrStr token.chain "")
  let chain_id : ChainId :=
    match token.chain_id with
    | some cid => cid
    | none => Sum.inr (if chain = "" then "svm" else chain)
  let contract_addr :=
    (truthyStr token.contract_address <|> truthyStr token.mint <|>
      truthyStr token.address).getD "svm-native"
  let asset_type := pyOrStr token.asset_type "svm"
  let raw2 := { token with
    chain := some chain, chain_id := some chain_id,
    contract_address := some contract_addr, asset_type := some asset_type }
  let amount_numeric := scaledAmount token
  let value_usd_num := token.value_usd.bind id
  { raw := raw2
    valueUSDFormatted :=
      match value_usd_num with
      | some v => format_usd (some v)
      | none => none
    amountFormatted :=
      match amount_numeric with
      | some a => format_amount_short (some a)
      | none => none
    change24h := none
    change24hBadgeClass := some "badge-neutral"
    change24hBadgeLabel := none
    chain_label := none
    amountNumeric := amount_numeric.getD 0
    valueUSDNumeric := value_usd_num.getD 0 }

/-! ## Aggregation across wallets -/

/-- The identity key of `token_key` (main.py): chain + contract + asset type + symbol. -/
abbrev TKey := Option ChainId × Option String × Option String × Option String

def token_key (token : RawToken) : TKey :=
  (token.chain_id, token.contract_address, token.asset_type, token.symbol)

/-- `token_matches_filter` (main.py): case-insensitive substring match against
contract address / address / mint / metadata address / symbol / name; an
absent or blank filter matches everything, empty candidate values are skipped. -/
def token_matches_filter (token : RawToken) (token_filter : Option String) : Bool :=
  match token_filter with
  | none => true
  | some s =>
    if s = "" then true
    else
      let f := asciiLower (pyStrip s)
      if f = "" then true
      else
        let tm := token.token_metadata
        let candidates : List (Option String) :=
          [token.contract_address, token.address, token.mint,
           tm.bind (fun m => m.address), token.symbol, token.name]
        candidates.any (fun v =>
          match v with
          | none => false
          | some cv => if cv = "" then false else strContainsSub (asciiLower cv) f)

/-- An activity record as the aggregator touches it: the aggregator only reads
`block_time` (for the final sort) and attaches `source_wallet`; every other
field passes through untouched. -/
structure ActRec where
  block_time : Option String
deriving DecidableEq, Repr

structure TaggedAct where
  act : ActRec
  source_wallet : String
deriving DecidableEq, Repr

/-- A merged portfolio entry: the token record plus its contributing wallets. -/
structure PTok where
  tok : EnrichedToken
  source_wallets : List String
deriving DecidableEq, Repr

/-- Walk the insertion-ordered token map: update the matching entry in place
or append a fresh one at the end (Python dict semantics). -/
def insertTokenAux (key : TKey) (addr : String) (t : EnrichedToken)
    (amount_num value_num : ℚ) : List (TKey × PTok) → List (TKey × PTok)
  | [] =>
    [(key, { tok := { t with amountNumeric := amount_num, valueUSDNumeric := value_num },
             source_wallets := [addr] })]
  | (k, p) :: rest =>
    if k = key then
      (k, { tok := { p.tok with
              amountNumeric := p.tok.amountNumeric + amount_num,
              valueUSDNumeric := p.tok.valueUSDNumeric + value_num },
            source_wallets :=
              if p.source_wallets.contains addr then p.source_wallets
              else p.source_wallets ++ [addr] }) :: rest
    else (k, p) :: insertTokenAux key addr t amount_num value_num rest

/-- The merge step of `get_portfolio` (main.py lines 724-740): one normalized
token of wallet `addr` merged into the running map keyed by `token_key`. -/
def insertToken (m : List (TKey × PTok)) (addr : String) (t : EnrichedToken) :
    List (TKey × PTok) :=
  insertTokenAux (token_key t.raw) addr t t.amountNumeric t.valueUSDNumeric m

/-- The 24h P&L contribution of one merged entry: `usdValue * change/100`,
zero when the change is unknown. -/
def pnlTerm (p : PTok) : ℚ :=
  match p.tok.change24h with
  | some c => p.tok.valueUSDNumeric * (c / 100)
  | none => 0

/-- The per-survivor recomputation of `get_portfolio` (main.py lines 756-763):
refresh `value_usd`, formatted strings and the chain label. -/
def recompute_token (p : PTok) : PTok :=
  let value_num := p.tok.valueUSDNumeric
  let amount_num := p.tok.amountNumeric
  { p with tok := { p.tok with
      raw := { p.tok.raw with value_usd := some (some value_num) },
      valueUSDFormatted := format_usd (some value_num),
      amountFormatted := format_amount_short (some amount_num),
      chain_label := some (get_chain_label p.tok.raw) } }

/-- The filtering/totals loop of `get_portfolio` (main.py lines 751-773):
keep entries passing the token filter, recompute their display fields, sum
USD values and 24h P&L over exactly the kept entries. -/
def aggregateFiltered (token_filter : Option String) :
    List PTok → List PTok × ℚ × ℚ
  | [] => ([], 0, 0)
  | p :: rest =>
    let r := aggregateFiltered token_filter rest
    if token_matches_filter p.tok.raw token_filter then
      (recompute_token p :: r.1, p.tok.valueUSDNumeric + r.2.1, pnlTerm p + r.2.2)
    else r

/-- Stable insertion for a descending sort: a new element passes only the
entries strictly below it (Python `list.sort(reverse=True)` stability). -/
def insDesc {α : Type} (gt : α → α → Bool) (x : α) : List α → List α
  | [] => [x]
  | y :: ys => if gt x y then x :: y :: ys else y :: insDesc gt x ys

def sortDesc {α : Type} (gt : α → α → Bool) (l : List α) : List α :=
  l.foldl (fun acc x => insDesc gt x acc) []

def tokGt (a b : PTok) : Bool := decide (b.tok.valueUSDNumeric < a.tok.valueUSDNumeric)

def actGt (a b : TaggedAct) : Bool :=
  strLtB (b.act.block_time.getD "") (a.act.block_time.getD "")

/-- The per-wallet dispatch of `get_portfolio` (main.py lines 708-722):
classify the address, fetch+normalize balances and activity for EVM wallets,
balances only for SVM wallets, nothing for unknown ones. The fetches are
environment parameters standing for the upstream API. -/
def walletData (fetch_evm_balances : String → Bool → List RawToken)
    (fetch_svm_balances : String → List RawToken)
    (fetch_evm_activity : String → List ActRec)
    (include_historical_prices : Bool) (addr : String) :
    List EnrichedToken × List ActRec :=
  let chain_type := detect_chain_type addr
  if chain_type = "evm" then
    (enrichEvmTokens (fetch_evm_balances addr include_historical_prices),
     fetch_evm_activity addr)
  else if chain_type = "svm" then
    ((fetch_svm_balances addr).map enrichSvmToken, [])
  else ([], [])

/-- One wallet's contribution folded into the running state of
`get_portfolio`: tokens merged into the map, activities tagged with their
wallet and appended. -/
def portfolioStep (fetch_evm_balances : String → Bool → List RawToken)
    (fetch_svm_balances : String → List RawToken)
    (fetch_evm_activity : String → List ActRec)
    (include_historical_prices : Bool)
    (st : List (TKey × PTok) × List TaggedAct) (addr : String) :
    List (TKey × PTok) × List TaggedAct :=
  let data := walletData fetch_evm_balances fetch_svm_balances fetch_evm_activity
    include_historical_prices addr
  (data.1.foldl (fun m t => insertToken m addr t) st.1,
   st.2 ++ data.2.map (fun a => { act := a, source_wallet := addr }))

/-- `get_portfolio` (main.py): fan-out over the wallets, merge, filter,
totals, sorts. Returns (tokens, activities, total value, total 24h P&L). -/
def get_portfolio (fetch_evm_balances : String → Bool → List RawToken)
    (fetch_svm_balances : String → List RawToken)
    (fetch_evm_activity : String → List ActRec)
    (wallets : List String) (include_historical_prices : Bool)
    (token_filter : Option String) :
    List PTok × List TaggedAct × ℚ × ℚ :=
  let st := wallets.foldl
    (portfolioStep fetch_evm_balances fetch_svm_balances fetch_evm_activity
      include_historical_prices) ([], [])
  let r := aggregateFiltered token_filter (st.1.map Prod.snd)
  (sortDesc tokGt r.1, sortDesc actGt st.2, r.2.1, r.2.2)

/-! ## The /api/portfolio route (main.py `api_portfolio`) -/

/-- The inline PnL class computation of `api_portfolio` (main.py lines 845-847). -/
def total_pnl_class (total_pnl_num : ℚ) : String :=
  if total_pnl_num ≠ 0 then (if 0 < total_pnl_num then "pnl-up" else "pnl-down")
  else "pnl-neutral"

/-- The request payload fields `api_portfolio` reads. -/
structure Payload where
  walletAddresses : List String
  tab : Option String
  tokenFilter : Option String
deriving DecidableEq, Repr

/-- The clean + dedupe loop of `api_portfolio` (main.py lines 797-808): strip
each address, drop blanks, keep the first occurrence per lowercased form. -/
def cleanWalletsAux (seen : List String) : List String → List String
  | [] => []
  | w :: rest =>
    if w = "" then cleanWalletsAux seen rest
    else
      let w2 := pyStrip w
      if w2 = "" then cleanWalletsAux seen rest
      else
        let lw := asciiLower w2
        if seen.contains lw then cleanWalletsAux seen rest
        else w2 :: cleanWalletsAux (lw :: seen) rest

def cleanWallets (raw : List String) : List String := cleanWalletsAux [] raw

/-- The JSON object `api_portfolio` returns. `tokenFilter : none` models the
branches whose dict has no `tokenFilter` key; likewise `error : none`. -/
structure ApiResponse where
  walletAddresses : List String
  currentTab : String
  tokenFilter : Option (Option String)
  totalWalletUSDValue : Option String
  totalPnLUSD : ℚ
  totalPnLUSDFormatted : Option String
  totalPnLClass : String
  tokens : List PTok
  activities : List TaggedAct
  error : Option String
deriving DecidableEq, Repr

def errMsg : String := "Failed to fetch wallet data. Please try again."

/-- `api_portfolio` (main.py lines 785-859). The `crash` flag models the
`except` branch: the real `get_portfolio` can only throw on a programming
error, so the embedding takes the outcome as a parameter; `crash = true` is
the run where the aggregate call threw and the handler swallows the
exception instead of propagating it. -/
def api_portfolio (fetch_evm_balances : String → Bool → List RawToken)
    (fetch_svm_balances : String → List RawToken)
    (fetch_evm_activity : String → List ActRec)
    (crash : Bool) (payload : Payload) : ApiResponse :=
  let tab := pyOrStr payload.tab "tokens"
  let token_filter := truthyStr payload.tokenFilter
  let wallets := cleanWallets payload.walletAddresses
  if wallets.isEmpty then
    { walletAddresses := [], currentTab := tab, tokenFilter := none,
      totalWalletUSDValue := format_usd (some 0), totalPnLUSD := 0,
      totalPnLUSDFormatted := none, totalPnLClass := "pnl-neutral",
      tokens := [], activities := [], error := none }
  else if crash then
    { walletAddresses := wallets, currentTab := tab, tokenFilter := none,
      totalWalletUSDValue := format_usd (some 0), totalPnLUSD := 0,
      totalPnLUSDFormatted := none, totalPnLClass := "pnl-neutral",
      tokens := [], activities := [], error := some errMsg }
  else
    let r := get_portfolio fetch_evm_balances fetch_svm_balances
      fetch_evm_activity wallets (tab = "tokens") token_filter
    { walletAddresses := wallets, currentTab := tab,
      tokenFilter := some token_filter,
      totalWalletUSDValue := format_usd (some r.2.2.1),
      totalPnLUSD := r.2.2.2,
      totalPnLUSDFormatted := format_signed_currency (some r.2.2.2),
      totalPnLClass := total_pnl_class r.2.2.2,
      tokens := r.1, activities := r.2.1, error := none }

/-! ## Activity amount display (main.py `get_wallet_activity`, lines 591-613) -/

/-- Activity decimals: metadata decimals, defaulting to 18 when absent or
unparseable. -/
def activityDecimals (decimals_raw : Option (Option Int)) : Int :=
  match decimals_raw with
  | some (some d) => d
  | _ => 18

/-- The scaled activity value: `safe_decimal(value) / 10^decimals`; `none`
when the value is absent or unparseable. -/
def activityScaled (value_raw : Option (Option ℚ))
    (decimals_raw : Option (Option Int)) : Option ℚ :=
  match value_raw with
  | some (some v) => some (v / (10:ℚ)^(activityDecimals decimals_raw))
  | _ => none

/-- `f"{scaled:.6f}".rstrip("0").rstrip(".")`. -/
def stripFixed6 (scaled : ℚ) : String :=
  dropTrailing (fun c => c = '.') (dropTrailing (fun c => c = '0') (fmtFixed 6 scaled))

/-- The amount display of one activity event (main.py lines 606-613): the
small-value literal, then the fixed rendering, then the large-value
scientific override. -/
def activityAmountDisplay (scaled : ℚ) : String :=
  let d0 := if 0 < qabs scaled ∧ qabs scaled < (1:ℚ)/10000 then "<0.0001"
    else stripFixed6 scaled
  if (10:ℚ)^(12:Nat) < qabs scaled ∨ 12 < d0.length then fmtSci2 scaled else d0

/-- Modelled from the spec's wording of the display rule (claim C7): the
literal `<0.0001` for magnitudes in `(0, 0.0001)`, otherwise the stripped
6-digit rendering, with the scientific override whenever the magnitude
exceeds `1e12` or the 6-digit rendering exceeds 12 characters. -/
def specAmountDisplay (scaled : ℚ) : String :=
  if (10:ℚ)^(12:Nat) < qabs scaled ∨ 12 < (stripFixed6 scaled).length then fmtSci2 scaled
  else if 0 < qabs scaled ∧ qabs scaled < (1:ℚ)/10000 then "<0.0001"
  else stripFixed6 scaled

/-! ## Claim-side filter predicates (claim C4) -/

/-- The candidate strings the filter is matched against, as the spec lists
them: contract / mint / address (including metadata address) / symbol / name. -/
def spec_filter_candidates (token : RawToken) : List String :=
  [token.contract_address, token.address, token.mint,
   token.token_metadata.bind (fun m => m.address),
   token.symbol, token.name].filterMap id

/-- A blank string: empty or whitespace only. -/
def spec_filter_blank (s : String) : Bool := s.toList.all isPyWs

/-- Claim C4's survival predicate exactly as stated: the filter is absent or
blank, or the lowercased filter (with no trimming) is a substring of a
lowercased candidate. -/
def claim_survives (token : RawToken) (token_filter : Option String) : Bool :=
  match token_filter with
  | none => true
  | some s =>
    spec_filter_blank s ||
    (spec_filter_candidates token).any
      (fun v => strContainsSub (asciiLower v) (asciiLower s))

/-- The amended survival predicate: as the claim states it, but with the
filter whitespace-trimmed before lowercasing, as the source does. -/
def claim_survives_trimmed (token : RawToken) (token_filter : Option String) : Bool :=
  match token_filter with
  | none => true
  | some s =>
    let f := asciiLower (pyStrip s)
    f = "" ||
    (spec_filter_candidates token).any (fun v => strContainsSub (asciiLower v) f)

/-! ## Concrete sample data -/

/-- A default-valued normalized token, for `Option.getD` on sample outputs. -/
def dummyEnriched : EnrichedToken :=
  { raw := blankToken, valueUSDFormatted := none, amountFormatted := none,
    change24h := none, change24hBadgeClass := none, change24hBadgeLabel := none,
    chain_label := none, amountNumeric := 0, valueUSDNumeric := 0 }

def wA : String := "0xaaaaaaaaaaaaaaaaaaaaaaaaaaaaaaaaaaaaaaaa"

def wB : String := "0xbbbbbbbbbbbbbbbbbbbbbbbbbbbbbbbbbbbbbbbb"

/-- EVM raw record worth $100 whose price moved from 100 to 110 (+10%). -/
def rawPnl1 : RawToken :=
  { blankToken with
    chain := some "ethereum"
    chain_id := some (Sum.inl 1)
    contract_address := some "0xc1"
    asset_type := some "erc20"
    symbol := some "AAA"
    decimals := some (some 0)
    amount := some (some 5)
    value_usd := some (some 100)
    price_usd := some 110
    historical_prices := some [{ offset_hours := some 24, price_usd := some 100 }] }

/-- EVM raw record worth $50 whose price moved from 100 to 80 (-20%). -/
def rawPnl2 : RawToken :=
  { blankToken with
    chain := some "ethereum"
    chain_id := some (Sum.inl 1)
    contract_address := some "0xc2"
    asset_type := some "erc20"
    symbol := some "BBB"
    decimals := some (some 0)
    amount := some (some 2)
    value_usd := some (some 50)
    price_usd := some 80
    historical_prices := some [{ offset_hours := some 24, price_usd := some 100 }] }

def envPnl : String → Bool → List RawToken := fun a _ =>
  if a = wA then [rawPnl1] else if a = wB then [rawPnl2] else []

def envEmptyB : String → Bool → List RawToken := fun _ _ => []

def envEmptyS : String → List RawToken := fun _ => []

def envEmptyA : String → List ActRec := fun _ => []

def payloadPnl : Payload :=
  { walletAddresses := [wA, wB], tab := some "tokens", tokenFilter := none }

/-- A token whose symbol is `USDC` and nothing else set. -/
def tokUSDC : RawToken := { blankToken with symbol := some "USDC" }

/-- A raw record whose amount field is present but unparseable. -/
def rawW5 : RawToken :=
  { blankToken with
    symbol := some "CCC"
    decimals := some (some 6)
    amount := some none }

def eW5 : EnrichedToken := (enrichEvmToken rawW5).getD dummyEnriched

/-- An ordinary raw record (not RTFKT). -/
def rawW8 : RawToken :=
  { blankToken with
    symbol := some "DDD"
    decimals := some (some 2)
    amount := some (some 250)
    value_usd := some (some 7) }

def eW8 : EnrichedToken := (enrichEvmTokens [rawW8]).headD dummyEnriched

/-- A raw record carrying the spam symbol. -/
def rawRTFKT : RawToken :=
  { blankToken with
    symbol := some "RTFKT"
    decimals := some (some 2)
    amount := some (some 250)
    value_usd := some (some 7) }

/-- A raw token with a given contract address, for key-equality samples. -/
def keyedToken (c : String) : RawToken :=
  { blankToken with
    chain_id := some (Sum.inl 1)
    contract_address := some c
    asset_type := some "erc20"
    symbol := some "TKN" }

def eTokA : EnrichedToken :=
  { dummyEnriched with raw := keyedToken "0xc1", amountNumeric := 3/2, valueUSDNumeric := 10 }

def eTokB : EnrichedToken :=
  { dummyEnriched with raw := keyedToken "0xc1", amountNumeric := 1/2, valueUSDNumeric := 5 }

def eTokC : EnrichedToken :=
  { dummyEnriched with raw := keyedToken "0xc9", amountNumeric := 7, valueUSDNumeric := 1 }

def payloadW9 : Payload :=
  { walletAddresses := [wA], tab := none, tokenFilter := none }

def actW10 : ActRec := { block_time := some "2024-01-01T00:00:00Z" }

def envActW10 : String → List ActRec := fun _ => [actW10]

def tagW10 : TaggedAct := { act := actW10, source_wallet := wA }

/-! ## Shared lemmas -/

theorem pnlTerm_recompute (p : PTok) : pnlTerm (recompute_token p) = pnlTerm p := rfl

theorem aggregateFiltered_eq (tf : Option String) (l : List PTok) :
    aggregateFiltered tf l =
      ((l.filter (fun p => token_matches_filter p.tok.raw tf)).map recompute_token,
       ((l.filter (fun p => token_matches_filter p.tok.raw tf)).map
         (fun p => p.tok.valueUSDNumeric)).sum,
       ((l.filter (fun p => token_matches_filter p.tok.raw tf)).map pnlTerm).sum) := by
  induction l with
  | nil => simp [aggregateFiltered]
  | cons p rest ih =>
    simp only [aggregateFiltered, ih, List.filter_cons]
    cases h : token_matches_filter p.tok.raw tf with
    | true => simp
    | false => simp

theorem mem_insDesc {α : Type} (gt : α → α → Bool) (x y : α) (l : List α) :
    y ∈ insDesc gt x l ↔ y = x ∨ y ∈ l := by
  induction l with
  | nil => simp [insDesc]
  | cons z zs ih =>
    simp only [insDesc]
    split
    · simp [List.mem_cons]
    · simp only [List.mem_cons, ih]
      tauto

theorem mem_sortDesc_aux {α : Type} (gt : α → α → Bool) :
    ∀ (l acc : List α) (y : α),
      y ∈ l.foldl (fun a x => insDesc gt x a) acc ↔ y ∈ acc ∨ y ∈ l := by
  intro l
  induction l with
  | nil => simp
  | cons z zs ih =>
    intro acc y
    simp only [List.foldl_cons, ih, mem_insDesc, List.mem_cons]
    tauto

theorem mem_sortDesc {α : Type} (gt : α → α → Bool) (l : List α) (y : α) :
    y ∈ sortDesc gt l ↔ y ∈ l := by
  simp [sortDesc, mem_sortDesc_aux]

theorem walletData_acts_empty (fb : String → Bool → List RawToken)
    (fs : String → List RawToken) (fa : String → List ActRec) (inc : Bool)
    (w : String) (hw : detect_chain_type w ≠ "evm") :
    (walletData fb fs fa inc w).2 = [] := by
  unfold walletData
  simp only [if_neg hw]
  split <;> rfl

theorem acts_fold_sources (fb : String → Bool → List RawToken)
    (fs : String → List RawToken) (fa : String → List ActRec) (inc : Bool) :
    ∀ (ws : List String) (st : List (TKey × PTok) × List TaggedAct) (a : TaggedAct),
      a ∈ (ws.foldl (portfolioStep fb fs fa inc) st).2 →
      a ∈ st.2 ∨ detect_chain_type a.source_wallet = "evm" := by
  intro ws
  induction ws with
  | nil => intro st a h; exact Or.inl h
  | cons w rest ih =>
    intro st a h
    rcases ih (portfolioStep fb fs fa inc st w) a h with h2 | h2
    · simp only [portfolioStep, List.mem_append] at h2
      rcases h2 with h3 | h3
      · exact Or.inl h3
      · rcases List.mem_map.mp h3 with ⟨b, hb, rfl⟩
        right
        by_cases hw : detect_chain_type w = "evm"
        · exact hw
        · rw [walletData_acts_empty fb fs fa inc w hw] at hb
          exact absurd hb (List.not_mem_nil b)
    · exact Or.inr h2

theorem toList_isEmpty_false (f : String) (hf : f ≠ "") : f.toList.isEmpty = false := by
  obtain ⟨d⟩ := f
  cases d with
  | nil => exact absurd rfl hf
  | cons c cs => rfl

theorem strContainsSub_empty_hay (f : String) (hf : f ≠ "") :
    strContainsSub "" f = false := by
  show subSeg f.toList [] = false
  show f.toList.isEmpty = false
  exact toList_isEmpty_false f hf

theorem filter_any_eq (l : List (Option String)) (f : String) (hf : f ≠ "") :
    (l.any (fun v =>
      match v with
      | none => false
      | some cv => if cv = "" then false else strContainsSub (asciiLower cv) f)) =
    (l.filterMap id).any (fun v => strContainsSub (asciiLower v) f) := by
  induction l with
  | nil => rfl
  | cons v vs ih =>
    cases v with
    | none =>
      rw [List.any_cons, List.filterMap_cons]
      show (false || _) = _
      rw [Bool.false_or, ih]
      rfl
    | some cv =>
      rw [List.any_cons, List.filterMap_cons]
      show _ = ((cv :: List.filterMap id vs).any fun v => strContainsSub (asciiLower v) f)
      rw [List.any_cons]
      by_cases hc : cv = ""
      · subst hc
        have h0 : strContainsSub (asciiLower "") f = false :=
          strContainsSub_empty_hay f hf
        show ((if ("" : String) = "" then false else strContainsSub (asciiLower "") f) || _) = _
        rw [if_pos rfl, h0, Bool.false_or, Bool.false_or, ih]
      · show ((if cv = "" then false else strContainsSub (asciiLower cv) f) || _) = _
        rw [if_neg hc, ih]

theorem token_matches_filter_eq_trimmed (t : RawToken) (tf : Option String) :
    token_matches_filter t tf = claim_survives_trimmed t tf := by
  cases tf with
  | none => rfl
  | some s =>
    by_cases hs : s = ""
    · subst hs
      rfl
    · simp only [token_matches_filter, claim_survives_trimmed, if_neg hs]
      by_cases hf : asciiLower (pyStrip s) = ""
      · simp [hf]
      · simp only [if_neg hf, decide_eq_false hf, Bool.false_or,
          spec_filter_candidates]
        exact filter_any_eq _ _ hf

theorem qabs_nonneg (q : ℚ) : 0 ≤ qabs q := by
  unfold qabs
  split_ifs with h
  · linarith
  · exact le_of_not_lt h

theorem rheNat_le_100 (x : ℚ) (h : x < 100) : rheNat x ≤ 100 := by
  have hdenq : (0:ℚ) < (x.den : ℚ) := by exact_mod_cast x.den_pos
  have hnum : (x.num : ℚ) < 100 * (x.den : ℚ) := by
    have hx := h
    rw [← Rat.num_div_den x] at hx
    exact (div_lt_iff₀ hdenq).mp hx
  have hnumZ : x.num < 100 * (x.den : Int) := by exact_mod_cast hnum
  have hfl : qfloorNat x ≤ 99 := by
    unfold qfloorNat
    have hdp := x.den_pos
    have h2 : x.num.toNat < 100 * x.den := by omega
    have h3 : x.num.toNat / x.den < 100 :=
      (Nat.div_lt_iff_lt_mul x.den_pos).mpr h2
    omega
  unfold rheNat
  split_ifs <;> omega

theorem dropWhile_len_le (p : Char → Bool) :
    ∀ l : List Char, (l.dropWhile p).length ≤ l.length := by
  intro l
  induction l with
  | nil => simp
  | cons c cs ih =>
    rw [List.dropWhile_cons]
    split
    · have := ih
      simp only [List.length_cons]
      omega
    · simp

theorem dropTrailing_len_le (p : Char → Bool) (s : String) :
    (dropTrailing p s).length ≤ s.length := by
  show ((s.toList.reverse.dropWhile p).reverse).length ≤ s.toList.length
  rw [List.length_reverse]
  calc (s.toList.reverse.dropWhile p).length ≤ s.toList.reverse.length :=
        dropWhile_len_le p _
    _ = s.toList.length := List.length_reverse _

theorem stripFixed6_len_le (q : ℚ) : (stripFixed6 q).length ≤ (fmtFixed 6 q).length := by
  unfold stripFixed6
  calc (dropTrailing (fun c => c = '.')
          (dropTrailing (fun c => c = '0') (fmtFixed 6 q))).length
      ≤ (dropTrailing (fun c => c = '0') (fmtFixed 6 q)).length :=
        dropTrailing_len_le _ _
    _ ≤ (fmtFixed 6 q).length := dropTrailing_len_le _ _

theorem repr_len_le_3 : ∀ m : Nat, m < 101 → (toString m).length ≤ 3 := by decide

theorem natPad_len (p m : Nat) (h : (toString m).length ≤ p) : (natPad p m).length = p := by
  unfold natPad
  rw [String.length_append]
  have h2 : (String.mk (List.replicate (p - (toString m).length) '0')).length
      = p - (toString m).length := by
    show (List.replicate (p - (toString m).length) '0').length = _
    exact List.length_replicate _ _
  omega

theorem fmtFixed_small_len (q : ℚ) (h2 : qabs q < 1/10000) :
    (fmtFixed 6 q).length ≤ 9 := by
  have hq : qabs q * (10:ℚ)^(6:Nat) < 100 := by
    have hpos : (0:ℚ) < (10:ℚ)^(6:Nat) := by norm_num
    calc qabs q * (10:ℚ)^(6:Nat) < (1/10000) * (10:ℚ)^(6:Nat) :=
          mul_lt_mul_of_pos_right h2 hpos
      _ = 100 := by norm_num
  have hn : rheNat (qabs q * (10:ℚ)^(6:Nat)) ≤ 100 := rheNat_le_100 _ hq
  unfold fmtFixed
  rw [if_neg (by norm_num : ¬((6:Nat) = 0))]
  have hp6 : (10:Nat)^(6:Nat) = 1000000 := by norm_num
  have hdiv : rheNat (qabs q * (10:ℚ)^(6:Nat)) / 10^(6:Nat) = 0 := by
    rw [hp6]
    exact Nat.div_eq_of_lt (by omega)
  have hmod : rheNat (qabs q * (10:ℚ)^(6:Nat)) % 10^(6:Nat)
      = rheNat (qabs q * (10:ℚ)^(6:Nat)) := by
    rw [hp6]
    exact Nat.mod_eq_of_lt (by omega)
  rw [String.length_append, String.length_append, String.length_append, hdiv, hmod]
  have hsgn : (if q < 0 then "-" else "").length ≤ 1 := by split_ifs <;> decide
  have hz : (toString (0:Nat)).length = 1 := rfl
  have hpad : (natPad 6 (rheNat (qabs q * (10:ℚ)^(6:Nat)))).length = 6 :=
    natPad_len 6 _ (le_trans (repr_len_le_3 _ (by omega)) (by norm_num))
  rw [hz, hpad]
  have hdot : (".").length = 1 := rfl
  omega

/-! ## Claim theorems -/

/-- Claim C6: `pct(current, past)` returns null iff an input is null or
`past == 0`; in every other case it returns exactly `(current - past) / past
* 100`, and `pct(110, 100) = 10`. The guard makes the division-by-zero case
unreachable. -/
theorem pct_characterization :
    (∀ curr past : Option ℚ,
      (pct curr past).isNone = (curr.isNone || past.isNone || past == some 0)) ∧
    (∀ c p : ℚ, pct (some c) (some p) = if p = 0 then none else some ((c - p) / p * 100)) ∧
    pct (some 110) (some 100) = some 10 := by
  refine ⟨?_, fun c p => rfl, by decide⟩
  intro curr past
  cases curr with
  | none => cases past <;> rfl
  | some c =>
    cases past with
    | none => rfl
    | some p =>
      by_cases hp : p = 0
      · subst hp
        simp [pct]
      · simp [pct, hp]

/-- Claim C2: classification returns `evm` iff the trimmed string fully
matches `^0x[0-9a-fA-F]{40}$`; otherwise `svm` iff it matches the base58
pattern of length 32-44 and decodes to exactly 32 or 64 bytes; otherwise
`unknown`. The embedding is a total function, so classification never
raises; a decode that matched the base58 charset cannot fail. -/
theorem detect_chain_type_characterization :
    ∀ s : String,
      (detect_chain_type s = "evm" ↔ evmMatch (pyStrip s) = true) ∧
      (detect_chain_type s = "svm" ↔
        (evmMatch (pyStrip s) = false ∧ base58Match (pyStrip s) = true ∧
          (b58decodedLen (pyStrip s) = 32 ∨ b58decodedLen (pyStrip s) = 64))) ∧
      (detect_chain_type s = "unknown" ↔
        (evmMatch (pyStrip s) = false ∧
          (base58Match (pyStrip s) = false ∨
            ¬(b58decodedLen (pyStrip s) = 32 ∨ b58decodedLen (pyStrip s) = 64)))) := by
  intro s
  unfold detect_chain_type
  cases he : evmMatch (pyStrip s) with
  | true => simp [he]
  | false =>
    cases hb : base58Match (pyStrip s) with
    | false => simp [he, hb]
    | true =>
      by_cases hl : b58decodedLen (pyStrip s) = 32 ∨ b58decodedLen (pyStrip s) = 64
      · simp [he, hb, hl]
      · simp [he, hb, hl]

/-- Claim C7: for a parseable value and decimals the amount display is
`<0.0001` for magnitudes in `(0, 0.0001)`, else the 6-fraction-digit
rendering with trailing zeros and point stripped, overridden by 2-digit
scientific notation when the magnitude exceeds `1e12` or the rendering
exceeds 12 characters; `0.00005` renders as `<0.0001` and `1.23e13` in
scientific notation. -/
theorem activity_amount_display_spec :
    (∀ scaled : ℚ, activityAmountDisplay scaled = specAmountDisplay scaled) ∧
    (∀ (v : ℚ) (dr : Option (Option Int)),
      activityScaled (some (some v)) dr = some (v / (10:ℚ)^(activityDecimals dr))) ∧
    activityAmountDisplay (1/20000) = "<0.0001" ∧
    activityAmountDisplay (12300000000000) = "1.23e+13" := by
  refine ⟨?_, fun v dr => rfl, by decide, by decide⟩
  intro q
  simp only [activityAmountDisplay, specAmountDisplay]
  by_cases hs : 0 < qabs q ∧ qabs q < (1:ℚ)/10000
  · have hlen : (stripFixed6 q).length ≤ 9 :=
      le_trans (stripFixed6_len_le q) (fmtFixed_small_len q hs.2)
    have hbig : ¬((10:ℚ)^(12:Nat) < qabs q) := by
      have h1 : (1:ℚ)/10000 < (10:ℚ)^(12:Nat) := by norm_num
      intro hc
      linarith [hs.2]
    rw [if_pos hs, if_neg ?c1, if_neg ?c2]
    case c1 =>
      rintro (h | h)
      · exact hbig h
      · exact absurd h (by decide)
    case c2 =>
      rintro (h | h)
      · exact hbig h
      · omega
  · rw [if_neg hs]

/-- Claim C3: the aggregate 24h P&L is the sum, over exactly the surviving
tokens, of `valueUSDNumeric * change24h/100` with null changes contributing
0; the two-wallet example (USD 100 at +10%, USD 50 at -20%) yields a total
P&L of 0 with class `pnl-neutral`; and the class is `pnl-neutral` exactly on
zero, `pnl-up` on positive, `pnl-down` on negative totals. -/
theorem total_pnl_sum_and_class :
    (∀ (tf : Option String) (entries : List PTok),
      (aggregateFiltered tf entries).2.2 =
        ((aggregateFiltered tf entries).1.map pnlTerm).sum) ∧
    (∀ x : ℚ,
      (total_pnl_class x = "pnl-neutral" ↔ x = 0) ∧
      (total_pnl_class x = "pnl-up" ↔ 0 < x) ∧
      (total_pnl_class x = "pnl-down" ↔ x < 0)) ∧
    (api_portfolio envPnl envEmptyS envEmptyA false payloadPnl).totalPnLUSD = 0 ∧
    (api_portfolio envPnl envEmptyS envEmptyA false payloadPnl).totalPnLClass
      = "pnl-neutral" := by
  refine ⟨?_, ?_, by decide, by decide⟩
  · intro tf entries
    rw [aggregateFiltered_eq]
    simp only [List.map_map]
    congr 1
  · intro x
    rcases lt_trichotomy x 0 with h | h | h
    · have hcl : total_pnl_class x = "pnl-down" := by
        unfold total_pnl_class
        rw [if_pos (ne_of_lt h), if_neg (by linarith : ¬ 0 < x)]
      rw [hcl]
      refine ⟨⟨fun hc => absurd hc (by decide), fun hc => absurd hc (ne_of_lt h)⟩,
        ⟨fun hc => absurd hc (by decide), fun hc => by linarith⟩,
        ⟨fun _ => h, fun _ => rfl⟩⟩
    · subst h
      have hcl : total_pnl_class 0 = "pnl-neutral" := by
        unfold total_pnl_class
        rw [if_neg (by simp)]
      rw [hcl]
      refine ⟨⟨fun _ => rfl, fun _ => rfl⟩,
        ⟨fun hc => absurd hc (by decide), fun hc => absurd hc (lt_irrefl 0)⟩,
        ⟨fun hc => absurd hc (by decide), fun hc => absurd hc (lt_irrefl 0)⟩⟩
    · have hcl : total_pnl_class x = "pnl-up" := by
        unfold total_pnl_class
        rw [if_pos (ne_of_gt h), if_pos h]
      rw [hcl]
      refine ⟨⟨fun hc => absurd hc (by decide), fun hc => absurd hc (ne_of_gt h)⟩,
        ⟨fun _ => h, fun _ => rfl⟩,
        ⟨fun hc => absurd hc (by decide), fun hc => by linarith⟩⟩

/-- Claim C4 counterexample: the filter string `" usdc "` (with surrounding
whitespace) is neither absent nor blank and is not, lowercased, a substring
of the token's symbol `USDC`; yet the code keeps the token, because the
source trims the filter before matching. -/
theorem token_filter_counterexample :
    token_matches_filter tokUSDC (some " usdc ") = true ∧
    claim_survives tokUSDC (some " usdc ") = false := by decide

/-- Claim C4 as amended: a token survives iff the filter is absent or blank,
or the lowercased, whitespace-trimmed filter is a substring of a lowercased
candidate (contract / address / mint / metadata address / symbol / name);
and the aggregate totals are sums over exactly the surviving tokens. -/
theorem token_filter_trimmed_and_totals :
    (∀ (t : RawToken) (tf : Option String),
      token_matches_filter t tf = claim_survives_trimmed t tf) ∧
    (∀ (tf : Option String) (entries : List PTok),
      aggregateFiltered tf entries =
        ((entries.filter (fun p => token_matches_filter p.tok.raw tf)).map
          recompute_token,
         ((entries.filter (fun p => token_matches_filter p.tok.raw tf)).map
           (fun p => p.tok.valueUSDNumeric)).sum,
         ((entries.filter (fun p => token_matches_filter p.tok.raw tf)).map
           pnlTerm).sum)) :=
  ⟨token_matches_filter_eq_trimmed, fun tf entries => aggregateFiltered_eq tf entries⟩

/-- Claim C1: merging two normalized records with the same identity key
(from the same or different wallets) yields one entry whose numeric fields
are the sums and whose `source_wallets` is the duplicate-free union of the
two wallets; records with distinct keys stay separate entries. -/
theorem merge_same_key_sums :
    ∀ (t1 t2 : EnrichedToken) (w1 w2 : String),
      (token_key t1.raw = token_key t2.raw →
        insertToken (insertToken [] w1 t1) w2 t2 =
          [(token_key t1.raw,
            { tok := { t1 with
                amountNumeric := t1.amountNumeric + t2.amountNumeric,
                valueUSDNumeric := t1.valueUSDNumeric + t2.valueUSDNumeric },
              source_wallets := if w2 = w1 then [w1] else [w1, w2] })]) ∧
      (token_key t1.raw ≠ token_key t2.raw →
        insertToken (insertToken [] w1 t1) w2 t2 =
          [(token_key t1.raw, { tok := t1, source_wallets := [w1] }),
           (token_key t2.raw, { tok := t2, source_wallets := [w2] })]) := by
  intro t1 t2 w1 w2
  constructor
  · intro h
    simp only [insertToken, insertTokenAux, if_pos h]
    by_cases hw : w2 = w1
    · subst hw
      simp [List.contains]
    · simp [List.contains, hw]
  · intro h
    simp only [insertToken, insertTokenAux, if_neg h]

/-- Witness for the merge theorem at concrete tokens and wallets. -/
theorem merge_same_key_sums_witness :
    (insertToken (insertToken [] wA eTokA) wB eTokB =
      [(token_key eTokA.raw,
        { tok := { eTokA with
            amountNumeric := eTokA.amountNumeric + eTokB.amountNumeric,
            valueUSDNumeric := eTokA.valueUSDNumeric + eTokB.valueUSDNumeric },
          source_wallets := if wB = wA then [wA] else [wA, wB] })]) ∧
    (insertToken (insertToken [] wA eTokA) wB eTokC =
      [(token_key eTokA.raw, { tok := eTokA, source_wallets := [wA] }),
       (token_key eTokC.raw, { tok := eTokC, source_wallets := [wB] })]) :=
  ⟨(merge_same_key_sums eTokA eTokB wA wB).1 (by decide),
   (merge_same_key_sums eTokA eTokC wA wB).2 (by decide)⟩

/-- Claim C5 counterexample: for a record whose amount is present but
unparseable, the EVM normalizer's emitted record carries `amountNumeric = 0`
(a number, not null) — the internal scaled amount is null, as the null
`amountFormatted` shows, but line 401 of main.py substitutes `0.0` already
at normalization time, not at aggregation time. -/
theorem evm_amount_null_counterexample :
    (enrichEvmToken rawW5).map (fun e => e.amountNumeric) = some 0 ∧
    (enrichEvmToken rawW5).map (fun e => e.amountFormatted) = some none := by decide

/-- Claim C5 as amended: when the amount or decimals field is absent or
unparseable, the internal scaled amount is null (hence `amountFormatted` is
null), and the record the EVM normalizer emits carries `amountNumeric = 0.0`
from normalization onward. -/
theorem evm_amount_zero_amended (t : RawToken)
    (h : t.amount = none ∨ t.amount = some none ∨
      t.decimals = none ∨ t.decimals = some none) :
    scaledAmount t = none ∧
    ∀ e : EnrichedToken, enrichEvmToken t = some e →
      e.amountNumeric = 0 ∧ e.amountFormatted = none := by
  have hs : scaledAmount t = none := by
    unfold scaledAmount
    rcases h with h | h | h | h
    · cases hd : t.decimals with
      | none => rfl
      | some od =>
        cases od with
        | none => rfl
        | some d => simp [h]
    · cases hd : t.decimals with
      | none => rfl
      | some od =>
        cases od with
        | none => rfl
        | some d => simp [h]
    · simp [h]
    · simp [h]
  refine ⟨hs, ?_⟩
  intro e he
  by_cases hr : t.symbol = some "RTFKT"
  · simp [enrichEvmToken, hr] at he
  · simp only [enrichEvmToken, if_neg hr] at he
    injection he with he2
    subst he2
    constructor
    · show (scaledAmount t).getD 0 = 0
      rw [hs]
      rfl
    · show (match scaledAmount t with
        | some a => format_amount_short (some a)
        | none => none) = none
      rw [hs]

/-- Witness for the amended claim at a concrete unparseable-amount record. -/
theorem evm_amount_zero_amended_witness :
    scaledAmount rawW5 = none ∧
    (eW5.amountNumeric = 0 ∧ eW5.amountFormatted = none) :=
  ⟨(evm_amount_zero_amended rawW5 (Or.inr (Or.inl rfl))).1,
   (evm_amount_zero_amended rawW5 (Or.inr (Or.inl rfl))).2 eW5 (by decide)⟩

/-- Claim C8: no record the EVM normalizer outputs carries the symbol
`RTFKT` — a raw record with that symbol is dropped whatever its other
fields; the source applies the drop after computing the other fields, as a
final exclusion before the append. -/
theorem rtfkt_never_output :
    ∀ (ts : List RawToken) (e : EnrichedToken), e ∈ enrichEvmTokens ts →
      e.raw.symbol ≠ some "RTFKT" := by
  intro ts e he
  rcases List.mem_filterMap.mp he with ⟨t, _, ht⟩
  by_cases hr : t.symbol = some "RTFKT"
  · simp [enrichEvmToken, hr] at ht
  · simp only [enrichEvmToken, if_neg hr] at ht
    injection ht with ht2
    rw [← ht2]
    exact hr

/-- Witness: a batch holding an RTFKT record and an ordinary one; the
normalized output of the ordinary record is in the output and its symbol is
not `RTFKT` (the RTFKT record itself was dropped). -/
theorem rtfkt_never_output_witness : eW8.raw.symbol ≠ some "RTFKT" :=
  rtfkt_never_output [rawRTFKT, rawW8] eW8 (by decide)

/-- Claim C9: when the aggregate call throws, the endpoint answers with the
degraded all-zero response — empty token and activity lists, zero P&L with
class `pnl-neutral` — plus a non-empty error string, instead of propagating
the exception. -/
theorem api_portfolio_degraded (fb : String → Bool → List RawToken)
    (fs : String → List RawToken) (fa : String → List ActRec)
    (payload : Payload) (h : cleanWallets payload.walletAddresses ≠ []) :
    (api_portfolio fb fs fa true payload).tokens = [] ∧
    (api_portfolio fb fs fa true payload).activities = [] ∧
    (api_portfolio fb fs fa true payload).totalPnLUSD = 0 ∧
    (api_portfolio fb fs fa true payload).totalPnLClass = "pnl-neutral" ∧
    (api_portfolio fb fs fa true payload).error = some errMsg ∧
    errMsg ≠ "" := by
  have hne : (cleanWallets payload.walletAddresses).isEmpty = false := by
    cases hw : cleanWallets payload.walletAddresses with
    | nil => exact absurd hw h
    | cons a l => rfl
  refine ⟨?_, ?_, ?_, ?_, ?_, by decide⟩ <;> simp [api_portfolio, hne]

/-- Witness for the degraded response at a concrete one-wallet payload. -/
theorem api_portfolio_degraded_witness :
    (api_portfolio envEmptyB envEmptyS envEmptyA true payloadW9).tokens = [] ∧
    (api_portfolio envEmptyB envEmptyS envEmptyA true payloadW9).activities = [] ∧
    (api_portfolio envEmptyB envEmptyS envEmptyA true payloadW9).totalPnLUSD = 0 ∧
    (api_portfolio envEmptyB envEmptyS envEmptyA true payloadW9).totalPnLClass
      = "pnl-neutral" ∧
    (api_portfolio envEmptyB envEmptyS envEmptyA true payloadW9).error = some errMsg ∧
    errMsg ≠ "" :=
  api_portfolio_degraded envEmptyB envEmptyS envEmptyA payloadW9 (by decide)

/-- Claim C10: every activity in the aggregated output carries a
`source_wallet` classified as EVM — SVM and unknown wallets contribute no
activity records at all, whatever the upstream responses. -/
theorem svm_contributes_no_activity (fb : String → Bool → List RawToken)
    (fs : String → List RawToken) (fa : String → List ActRec)
    (wallets : List String) (inc : Bool) (tf : Option String) (a : TaggedAct)
    (h : a ∈ (get_portfolio fb fs fa wallets inc tf).2.1) :
    detect_chain_type a.source_wallet = "evm" := by
  simp only [get_portfolio] at h
  rw [mem_sortDesc] at h
  rcases acts_fold_sources fb fs fa inc wallets ([], []) a h with h2 | h2
  · exact absurd h2 (List.not_mem_nil a)
  · exact h2

/-- Witness: one EVM wallet whose activity fetch returns one record; that
record is in the output, tagged with the EVM wallet. -/
theorem svm_contributes_no_activity_witness :
    detect_chain_type tagW10.source_wallet = "evm" :=
  svm_contributes_no_activity envEmptyB envEmptyS envActW10 [wA] true none tagW10
    (by decide)
